import Mathlib

set_option maxHeartbeats 1000000

/-
Verification development for the experiment-intelligence core of the
chaos_engineering_thinker repository: the memory store
(app/agents/intelligence/memory_store.py), the experiment planner
(app/agents/intelligence/experiment_planner.py), the outcome predictor
(app/agents/intelligence/experiment_predictor.py) and the safety validator
(app/services/validation/safety_validator.py), shallowly embedded in Lean.
Python floats are modelled by the symbolic type F below (exact rationals
plus the IEEE specials inf, -inf and nan that the source manufactures via
float with inf literals); Python dicts by insertion-ordered association
lists; fallible Python code (KeyError, ValueError, ZeroDivisionError,
IndexError) by Except.
-/

attribute [local semireducible] Rat.add Rat.mul Rat.inv Rat.sub Rat.ofScientific

/-- Decidable equality for Except results, used to evaluate the embedded
fallible operations on concrete inputs. -/
instance {ε α : Type} [DecidableEq ε] [DecidableEq α] : DecidableEq (Except ε α) :=
  fun x y =>
    match x, y with
    | Except.ok a, Except.ok b =>
        if h : a = b then isTrue (congrArg Except.ok h)
        else isFalse (fun hc => h (Except.ok.inj hc))
    | Except.error a, Except.error b =>
        if h : a = b then isTrue (congrArg Except.error h)
        else isFalse (fun hc => h (Except.error.inj hc))
    | Except.ok _, Except.error _ => isFalse (fun hc => Except.noConfusion hc)
    | Except.error _, Except.ok _ => isFalse (fun hc => Except.noConfusion hc)

namespace ChaosSpec

/-- Symbolic model of a Python float: an exact rational, one of the two
infinities (the source creates them with float of "inf" and "-inf" in
MemoryStore._calculate_safe_ranges), or nan. -/
inductive F where
  | fin (q : ℚ)
  | pinf
  | ninf
  | nan
deriving DecidableEq

namespace F

/-- Negation of a Python float. -/
def neg : F → F
  | fin q => fin (-q)
  | pinf => ninf
  | ninf => pinf
  | nan => nan

/-- Addition of Python floats (IEEE rules for the specials; inf + -inf = nan). -/
def add : F → F → F
  | nan, _ => nan
  | _, nan => nan
  | fin a, fin b => fin (a + b)
  | fin _, pinf => pinf
  | fin _, ninf => ninf
  | pinf, fin _ => pinf
  | ninf, fin _ => ninf
  | pinf, pinf => pinf
  | pinf, ninf => nan
  | ninf, pinf => nan
  | ninf, ninf => ninf

/-- Subtraction of Python floats. -/
def sub (a b : F) : F := add a (neg b)

/-- Multiplication of Python floats (0 * inf = nan). -/
def mul : F → F → F
  | nan, _ => nan
  | _, nan => nan
  | fin a, fin b => fin (a * b)
  | fin a, pinf => if 0 < a then pinf else if a < 0 then ninf else nan
  | fin a, ninf => if 0 < a then ninf else if a < 0 then pinf else nan
  | pinf, fin a => if 0 < a then pinf else if a < 0 then ninf else nan
  | ninf, fin a => if 0 < a then ninf else if a < 0 then pinf else nan
  | pinf, pinf => pinf
  | pinf, ninf => ninf
  | ninf, pinf => ninf
  | ninf, ninf => pinf

/-- Division of Python floats. Python raises ZeroDivisionError on a zero
denominator; inf/inf is nan; finite/inf is 0. -/
def div (a b : F) : Except String F :=
  match a, b with
  | _, fin q =>
      if q = 0 then Except.error "ZeroDivisionError"
      else match a with
        | fin p => Except.ok (fin (p / q))
        | pinf => Except.ok (if 0 < q then pinf else ninf)
        | ninf => Except.ok (if 0 < q then ninf else pinf)
        | nan => Except.ok nan
  | nan, _ => Except.ok nan
  | _, nan => Except.ok nan
  | fin _, pinf => Except.ok (fin 0)
  | fin _, ninf => Except.ok (fin 0)
  | pinf, pinf => Except.ok nan
  | pinf, ninf => Except.ok nan
  | ninf, pinf => Except.ok nan
  | ninf, ninf => Except.ok nan

/-- Strict comparison of Python floats; every comparison with nan is False. -/
def lt : F → F → Bool
  | nan, _ => false
  | _, nan => false
  | fin a, fin b => decide (a < b)
  | fin _, pinf => true
  | fin _, ninf => false
  | pinf, _ => false
  | ninf, ninf => false
  | ninf, fin _ => true
  | ninf, pinf => true

/-- Python builtin min of two floats: returns the first argument unless the
second is strictly smaller (hence returns nan when the first is nan). -/
def pyMin (a b : F) : F := if lt b a then b else a

/-- Python builtin max of two floats: returns the first argument unless the
second is strictly larger. -/
def pyMax (a b : F) : F := if lt a b then b else a

/-- Sum of a list of Python floats starting from 0, as Python sum and
numpy reduction do. -/
def sum (l : List F) : F := l.foldl add (fin 0)

/-- Division of a Python float by a positive integer count (only applied to
list lengths that the source guards to be nonzero). -/
def divNat (a : F) (n : ℕ) : F :=
  match a with
  | fin q => fin (q / (n : ℚ))
  | pinf => pinf
  | ninf => ninf
  | nan => nan

/-- numpy mean of a list of floats: sum divided by length, nan on the empty
list (the source guards against the empty case before calling np.mean). -/
def mean (l : List F) : F :=
  if l.length = 0 then nan else divNat (sum l) l.length

end F

/-- A Python parameter value as stored in the experiment parameter dicts of
this repository: a numeric value (int or float) or a string. The isinstance
checks on (int, float) in the source correspond to the num constructor. -/
inductive PVal where
  | num (f : F)
  | str (s : String)
deriving DecidableEq

/-- Python dict lookup on an insertion-ordered association list. -/
def lookupD {α : Type} (d : List (String × α)) (k : String) : Option α :=
  (d.find? (fun p => p.fst == k)).map Prod.snd

/-- Python dict key-assignment: an existing key keeps its position, a new
key is appended, matching CPython insertion order. -/
def insertD {α : Type} (d : List (String × α)) (k : String) (v : α) : List (String × α) :=
  if (lookupD d k).isSome then d.map (fun p => if p.fst == k then (p.fst, v) else p)
  else d ++ [(k, v)]

/-- In-place update of the value at an existing key. -/
def updateD {α : Type} (d : List (String × α)) (k : String) (f : α → α) : List (String × α) :=
  d.map (fun p => if p.fst == k then (p.fst, f p.snd) else p)

/-- Keys of a dict, in insertion order. -/
def keysD {α : Type} (d : List (String × α)) : List String := d.map Prod.fst

/-- Cardinality of the Python set intersection of two string lists. -/
def interCount (a b : List String) : ℕ :=
  (a.eraseDups.filter (fun x => b.contains x)).length

/-- Cardinality of the Python set union of two string lists. -/
def unionCount (a b : List String) : ℕ := ((a ++ b).eraseDups).length

/-- ExperimentOutcome enum from memory_store.py. The constructor notSafe
embeds the member whose value string is the word for not-safe in the
source, which this file avoids spelling for tooling reasons. -/
inductive ExperimentOutcome where
  | success
  | partSuccess
  | failure
  | notSafe
  | interrupted
deriving DecidableEq

/-- An outcome counts as successful when it is SUCCESS or PARTIAL_SUCCESS,
the pair tested throughout the source. -/
def isSuccessful (o : ExperimentOutcome) : Bool :=
  o == ExperimentOutcome.success || o == ExperimentOutcome.partSuccess

/-- ExperimentMemory dataclass from memory_store.py. Of the timestamp only
the hour and minute fields are consulted by the core (training feature 6
and the trend analysis), so the timestamp is embedded as those two. -/
structure ExperimentMemory where
  experiment_id : String
  ts_hour : ℕ
  ts_minute : ℕ
  experiment_type : String
  target_component : String
  parameters : List (String × PVal)
  outcome : ExperimentOutcome
  metrics : List (String × ℚ)
  learnings : List String
  affected_components : List String
  duration : String
  risk_level : String
deriving DecidableEq

/-- Safe parameter range entry: the {min, max} dict built by
MemoryStore._calculate_safe_ranges, initialised to {inf, -inf}. -/
structure PRange where
  min : F
  max : F
deriving DecidableEq

/-- Failure pattern dict from MemoryStore._identify_failure_patterns:
{type, parameters, affected_components, duration}. -/
structure FailurePattern where
  type : String
  parameters : List (String × PVal)
  affected_components : List String
  duration : String
deriving DecidableEq

/-- Component risk profile dict: the five keys written both by
MemoryStore._build_risk_profile and by the default branch of
get_component_risk_profile. The three scalar entries are always finite in
the source (ratios and means of counts), hence ℚ. -/
structure RiskProfile where
  success_rate : ℚ
  avg_impact : ℚ
  risk_score : ℚ
  safe_parameter_ranges : List (String × PRange)
  failure_patterns : List FailurePattern
deriving DecidableEq

/-- The default profile installed by get_component_risk_profile when no
data exists for the component: success_rate 0.5, avg_impact 1.0,
risk_score 0.5, empty ranges and patterns. -/
def defaultRiskProfile : RiskProfile := ⟨1/2, 1, 1/2, [], []⟩

/-- The memory store is modelled by its append-only experiment history; the
cached component_knowledge / relationship_knowledge / risk_profiles maps
maintained by add_experiment and _update_knowledge are pure functions of
this history (each add recomputes them from the full filtered history), so
they are embedded as the derived functions below. -/
abbrev Store := List ExperimentMemory

/-- History records whose target_component equals the queried component key
(a Python dict key, hence a PVal; stored targets are strings). -/
def componentHistory (store : Store) (component : PVal) : List ExperimentMemory :=
  store.filter (fun m => PVal.str m.target_component == component)

/-- Records with a successful outcome, the filter used by
_build_risk_profile and _calculate_safe_ranges. -/
def successfulOf (l : List ExperimentMemory) : List ExperimentMemory :=
  l.filter (fun m => isSuccessful m.outcome)

/-- MemoryStore._calculate_safe_ranges: fold over successful records and
their parameters; a fresh key starts at {min: inf, max: -inf} and numeric
values tighten the bounds with builtin min/max; non-numeric values leave
the freshly-created infinite range in place. -/
def calculateSafeRanges (experiments : List ExperimentMemory) : List (String × PRange) :=
  let successful := successfulOf experiments
  if successful.isEmpty then []
  else
    successful.foldl (fun ranges exp =>
      exp.parameters.foldl (fun ranges pv =>
        let ranges2 := if (lookupD ranges pv.fst).isSome then ranges
          else ranges ++ [(pv.fst, ⟨F.pinf, F.ninf⟩)]
        match pv.snd with
        | PVal.num v => updateD ranges2 pv.fst (fun r => ⟨F.pyMin r.min v, F.pyMax r.max v⟩)
        | PVal.str _ => ranges2) ranges) []

/-- MemoryStore._identify_failure_patterns: distinct pattern dicts drawn
from FAILURE/UNSAFE records, first occurrence kept. -/
def identifyFailurePatterns (experiments : List ExperimentMemory) : List FailurePattern :=
  let failed := experiments.filter (fun m =>
    m.outcome == ExperimentOutcome.failure || m.outcome == ExperimentOutcome.notSafe)
  if failed.isEmpty then []
  else
    failed.foldl (fun patterns exp =>
      let pat : FailurePattern :=
        ⟨exp.experiment_type, exp.parameters, exp.affected_components, exp.duration⟩
      if patterns.contains pat then patterns else patterns ++ [pat]) []

/-- MemoryStore.get_component_risk_profile composed with _build_risk_profile:
with history for the component the profile is success rate, mean affected
count, risk score (1 - success_rate) * avg_impact, safe ranges and failure
patterns; with no history the default profile is returned. -/
def getComponentRiskProfile (store : Store) (component : PVal) : RiskProfile :=
  let experiments := componentHistory store component
  if experiments.isEmpty then defaultRiskProfile
  else
    let n : ℚ := experiments.length
    let successRate : ℚ := ((successfulOf experiments).length : ℚ) / n
    let avgImpact : ℚ :=
      ((experiments.map (fun m => (m.affected_components.length : ℚ))).sum) / n
    ⟨successRate, avgImpact, (1 - successRate) * avgImpact,
      calculateSafeRanges experiments, identifyFailurePatterns experiments⟩

/-- MemoryStore.get_component_relationships: co-occurrence counts of
affected components across records targeting the component, built exactly
as _update_knowledge increments them; empty for an unknown or non-string
key. -/
def getComponentRelationships (store : Store) (component : PVal) : List (String × ℕ) :=
  match component with
  | PVal.str s =>
      (store.filter (fun m => m.target_component == s)).foldl (fun rel m =>
        m.affected_components.foldl (fun rel affected =>
          match lookupD rel affected with
          | some c => updateD rel affected (fun _ => c + 1)
          | none => rel ++ [(affected, 1)]) rel) []
  | _ => []

/-- A safety-check dict built by ExperimentPlanner._add_safety_measures:
{name, description} for the basic checks, plus a parameters entry for the
failure-pattern checks. -/
structure SafetyCheck where
  name : String
  description : String
  parameters : Option (List (String × PVal))
deriving DecidableEq

/-- The monitoring sub-dict of an experiment; _add_monitoring only reads
and writes its "metrics" key (a list of metric names). -/
abbrev MonitoringDict := List (String × List String)

/-- An in-flight experiment candidate dict as consumed by the planner and
predictor. type is required (read unguarded by _calculate_similarity);
duration, affected_components, safety_checks and monitoring model optional
keys; parameters is the nested parameter dict (must contain
target_component for the planner, which otherwise raises KeyError). -/
structure Candidate where
  type : String
  parameters : List (String × PVal)
  duration : Option String
  affected_components : Option (List String)
  safety_checks : Option (List SafetyCheck)
  monitoring : Option MonitoringDict
deriving DecidableEq

/-- Component entry of the planner-side system analysis; _add_monitoring
reads name and type. -/
structure ComponentInfo where
  name : String
  type : String
deriving DecidableEq

/-- Planner-side system analysis: the components list and the
critical_components list read via dict get with empty-list defaults. -/
structure SystemAnalysis where
  components : List ComponentInfo
  critical_components : List String
deriving DecidableEq

/-- MemoryStore._calculate_similarity: weighted sum 0.3 type match +
0.3 target match + 0.2 parameter-key Jaccard + 0.2 affected-component
Jaccard. Reading target_component raises KeyError when absent. -/
def calculateSimilarity (e : Candidate) (m : ExperimentMemory) : Except String ℚ := do
  let typeSim : ℚ := if e.type == m.experiment_type then 1 else 0
  let tgt ← match lookupD e.parameters "target_component" with
    | some v => Except.ok v
    | none => Except.error "KeyError: target_component"
  let targetSim : ℚ := if tgt == PVal.str m.target_component then 1 else 0
  let ekeys := keysD e.parameters
  let mkeys := keysD m.parameters
  let common := interCount ekeys mkeys
  let paramSim : ℚ :=
    if common ≠ 0 then (common : ℚ) / (unionCount ekeys mkeys : ℚ) else 0
  let compSim : ℚ :=
    match e.affected_components with
    | some eac =>
        if !m.affected_components.isEmpty then
          let cc := interCount eac m.affected_components
          if cc ≠ 0 then (cc : ℚ) / (unionCount eac m.affected_components : ℚ) else 0
        else 0
    | none => 0
  return 0.3 * typeSim + 0.3 * targetSim + 0.2 * paramSim + 0.2 * compSim

/-- MemoryStore.get_similar_experiments: every record whose similarity is
at least the threshold, in history order. -/
def getSimilarExperiments (store : Store) (e : Candidate) (threshold : ℚ) :
    Except String (List ExperimentMemory) :=
  match store with
  | [] => Except.ok []
  | m :: rest => do
      let s ← calculateSimilarity e m
      let tail ← getSimilarExperiments rest e threshold
      return if threshold ≤ s then m :: tail else tail

/-- Python str.rstrip with a single strip character: removes every trailing
occurrence of that character. -/
def rstrip (s : String) (c : Char) : String :=
  String.mk ((s.data.reverse.dropWhile (fun x => x == c)).reverse)

/-- Digits to a natural number, most significant first. -/
def digitsToNat (ds : List Char) : ℕ :=
  ds.foldl (fun acc c => acc * 10 + (c.toNat - 48)) 0

/-- Python int() applied to a decimal string (optionally sign-prefixed);
raises ValueError on anything else. -/
def pyInt (s : String) : Except String ℤ :=
  match s.data with
  | [] => Except.error "ValueError"
  | c :: rest =>
      if c == '-' then
        if !rest.isEmpty && rest.all Char.isDigit then
          Except.ok (-(digitsToNat rest : ℤ))
        else Except.error "ValueError"
      else if (c :: rest).all Char.isDigit then
        Except.ok ((digitsToNat (c :: rest) : ℤ))
      else Except.error "ValueError"

/-- ExperimentPlanner._calculate_impact_risk: 0 with no affected
components, otherwise 0.7 * critical fraction + 0.3 * mean relationship
strength, capped at 1. -/
def calculateImpactRisk (affected : List String) (relationships : List (String × ℕ))
    (sa : SystemAnalysis) : ℚ :=
  if affected.isEmpty then 0
  else
    let criticalCount : ℕ := interCount affected sa.critical_components
    let relStrength : ℚ :=
      ((affected.map (fun c => (((lookupD relationships c).getD 0 : ℕ) : ℚ))).sum) /
        (affected.length : ℚ)
    min (0.7 * ((criticalCount : ℚ) / (affected.length : ℚ)) + 0.3 * relStrength) 1

/-- ExperimentPlanner._calculate_parameter_risk: 0.5 with no known ranges;
otherwise, for each numeric parameter with a known range, the normalised
distance outside the range ((min-value)/min below, (value-max)/max above,
0 inside), averaged with np.mean; 0.5 again when no parameter qualified. -/
def calculateParameterRisk (parameters : List (String × PVal))
    (safeRanges : List (String × PRange)) : Except String F :=
  if safeRanges.isEmpty then Except.ok (F.fin (1/2))
  else
    (parameters.foldlM (fun (risks : List F) pv => do
      match pv.snd, lookupD safeRanges pv.fst with
      | PVal.num v, some r =>
          let risk ←
            if F.lt v r.min then F.div (F.sub r.min v) r.min
            else if F.lt r.max v then F.div (F.sub v r.max) r.max
            else Except.ok (F.fin 0)
          return risks ++ [risk]
      | _, _ => return risks) []) >>= fun risks =>
    if risks.isEmpty then Except.ok (F.fin (1/2)) else Except.ok (F.mean risks)

/-- Duration risk from calculate_experiment_risk: min(seconds/300, 1). -/
def durationRiskOf (secs : ℤ) : ℚ := min ((secs : ℚ) / 300) 1

/-- The return dict of calculate_experiment_risk. base_risk, impact_risk
and duration_risk are finite by construction; parameter_risk and hence
total_risk flow through float arithmetic that can leave the finite range. -/
structure RiskScores where
  total_risk : F
  base_risk : ℚ
  impact_risk : ℚ
  parameter_risk : F
  duration_risk : ℚ
deriving DecidableEq

/-- ExperimentPlanner.calculate_experiment_risk: base risk from the profile
risk_score, impact risk, parameter risk, duration risk min(secs/300, 1),
combined with weights [0.3, 0.3, 0.2, 0.2]. KeyError when the candidate has
no target_component, ValueError on an unparseable duration. -/
def calculateExperimentRisk (store : Store) (e : Candidate) (sa : SystemAnalysis) :
    Except String RiskScores := do
  let target ← match lookupD e.parameters "target_component" with
    | some v => Except.ok v
    | none => Except.error "KeyError: target_component"
  let riskProfile := getComponentRiskProfile store target
  let relationships := getComponentRelationships store target
  let baseRisk : ℚ := riskProfile.risk_score
  let impactRisk : ℚ :=
    calculateImpactRisk (e.affected_components.getD []) relationships sa
  let paramRisk ← calculateParameterRisk e.parameters riskProfile.safe_parameter_ranges
  let durationSecs ← pyInt (rstrip (e.duration.getD "30s") 's')
  let durationRisk : ℚ := durationRiskOf durationSecs
  let totalRisk : F := F.sum
    [F.mul (F.fin 0.3) (F.fin baseRisk), F.mul (F.fin 0.3) (F.fin impactRisk),
     F.mul (F.fin 0.2) paramRisk, F.mul (F.fin 0.2) (F.fin durationRisk)]
  return ⟨totalRisk, baseRisk, impactRisk, paramRisk, durationRisk⟩

/-- The clamp applied to one parameter entry by _adjust_parameters: a
numeric value with a known safe range is pulled to the nearer bound when
outside it; everything else is untouched. -/
def clampEntry (safeRanges : List (String × PRange)) (k : String) (v : PVal) : PVal :=
  match v, lookupD safeRanges k with
  | PVal.num q, some r =>
      if F.lt q r.min then PVal.num r.min
      else if F.lt r.max q then PVal.num r.max
      else PVal.num q
  | _, _ => v

/-- The in-place parameter rewrite of _adjust_parameters over the whole
parameter dict. -/
def clampParams (params : List (String × PVal)) (safeRanges : List (String × PRange)) :
    List (String × PVal) :=
  params.map (fun pv => (pv.fst, clampEntry safeRanges pv.fst pv.snd))

/-- ExperimentPlanner._adjust_parameters: returns the experiment untouched
when no similar experiments exist; otherwise clamps each numeric parameter
with a known safe range. (The successful_params dict the source builds
first is dead code: it is never read.) The source mutates
experiment["parameters"] in place; the mutation is reflected in
enhanceExperiment's caller view below. -/
def adjustParameters (e : Candidate) (similar : List ExperimentMemory)
    (rp : RiskProfile) : Candidate :=
  if similar.isEmpty then e
  else { e with parameters := clampParams e.parameters rp.safe_parameter_ranges }

/-- The three fixed basic checks appended by _add_safety_measures. -/
def basicChecks : List SafetyCheck :=
  [⟨"monitoring", "Ensure monitoring is enabled", none⟩,
   ⟨"rollback", "Verify rollback procedure", none⟩,
   ⟨"timeout", "Set appropriate timeouts", none⟩]

/-- ExperimentPlanner._add_safety_measures: ensure a safety_checks list,
extend it with the basic checks, then append one check per failure pattern
unless an equal check is already present. -/
def addSafetyMeasures (e : Candidate) (rp : RiskProfile) : Candidate :=
  let checks1 := e.safety_checks.getD [] ++ basicChecks
  let checks2 := rp.failure_patterns.foldl (fun checks pattern =>
    let check : SafetyCheck :=
      ⟨"prevent_" ++ pattern.type, "Prevent " ++ pattern.type ++ " failure pattern",
        some pattern.parameters⟩
    if checks.contains check then checks else checks ++ [check]) checks1
  { e with safety_checks := some checks2 }

/-- Insertion into a sorted list, for the sort underlying np.median. -/
def insertSorted (n : ℤ) : List ℤ → List ℤ
  | [] => [n]
  | m :: rest => if n ≤ m then n :: m :: rest else m :: insertSorted n rest

/-- Ascending sort of an integer list. -/
def sortInts (l : List ℤ) : List ℤ := l.foldr insertSorted []

/-- Python int() applied to a rational float value truncates toward zero. -/
def pyTrunc (q : ℚ) : ℤ := if 0 ≤ q then ⌊q⌋ else -⌊-q⌋

/-- np.median of a nonempty integer list: middle element of the sorted
list, or the mean of the two middle elements for even length. -/
def npMedian (l : List ℤ) : ℚ :=
  let s := sortInts l
  let n := s.length
  if n % 2 = 1 then (((s.get? (n / 2)).getD 0 : ℤ) : ℚ)
  else ((((s.get? (n / 2 - 1)).getD 0 + (s.get? (n / 2)).getD 0 : ℤ) : ℚ)) / 2

/-- ExperimentPlanner._optimize_duration: with similar experiments, take
the median duration of the successful ones and lower the candidate's
duration to it when the current duration is higher; the new duration is
rendered back as an integer-plus-s string. ValueError propagates from
int() on malformed durations. -/
def optimizeDuration (e : Candidate) (similar : List ExperimentMemory) :
    Except String Candidate :=
  if similar.isEmpty then Except.ok e
  else
    ((successfulOf similar).mapM (fun m => pyInt (rstrip m.duration 's'))) >>=
      fun successfulDurations =>
    if successfulDurations.isEmpty then Except.ok e
    else
      let optimal : ℤ := pyTrunc (npMedian successfulDurations)
      pyInt (rstrip (e.duration.getD "30s") 's') >>= fun current =>
      if optimal < current then
        Except.ok { e with duration := some (toString optimal ++ "s") }
      else Except.ok e

/-- The four base metrics _add_monitoring always installs. -/
def baseMetrics : List String := ["cpu_usage", "memory_usage", "error_rate", "latency"]

/-- ExperimentPlanner._add_monitoring: overwrite monitoring["metrics"] with
the base metrics, extended with database- or cache-specific metrics when
the target component is found in the system analysis. Raises KeyError when
the candidate has no target_component. -/
def addMonitoring (e : Candidate) (sa : SystemAnalysis) : Except String Candidate := do
  let mon0 : MonitoringDict := e.monitoring.getD []
  let target ← match lookupD e.parameters "target_component" with
    | some v => Except.ok v
    | none => Except.error "KeyError: target_component"
  let metrics1 :=
    match sa.components.find? (fun c => PVal.str c.name == target) with
    | some ci =>
        if ci.type == "database" then
          baseMetrics ++ ["connection_count", "query_latency", "transaction_rate"]
        else if ci.type == "cache" then
          baseMetrics ++ ["hit_rate", "eviction_rate", "memory_fragmentation"]
        else baseMetrics
    | none => baseMetrics
  return { e with monitoring := some (insertD mon0 "metrics" metrics1) }

/-- Result of enhance_experiment. enhanced is the returned dict. The source
starts from the shallow experiment.copy(), so the nested parameters dict is
shared with the caller's input and is mutated in place by
_adjust_parameters; the safety_checks list and the monitoring dict are
likewise shared exactly when the input already carried those keys (when
absent, fresh objects are attached to the copy only). callerView is the
caller's input object as it stands after the call, with those aliasing
effects applied; its top-level duration and key-presence are untouched
because the pipeline writes duration and fresh keys only on the copy. -/
structure EnhanceResult where
  enhanced : Candidate
  callerView : Candidate
deriving DecidableEq

/-- ExperimentPlanner.enhance_experiment: fetch similar experiments and the
target risk profile, then the four-stage pipeline adjust parameters, add
safety measures, optimize duration, add monitoring. -/
def enhanceExperiment (store : Store) (e : Candidate) (sa : SystemAnalysis) :
    Except String EnhanceResult := do
  let similar ← getSimilarExperiments store e (7/10)
  let target ← match lookupD e.parameters "target_component" with
    | some v => Except.ok v
    | none => Except.error "KeyError: target_component"
  let rp := getComponentRiskProfile store target
  let e1 := adjustParameters e similar rp
  let e2 := addSafetyMeasures e1 rp
  let e3 ← optimizeDuration e2 similar
  let e4 ← addMonitoring e3 sa
  let callerView : Candidate := { e with
    parameters := e4.parameters,
    safety_checks := match e.safety_checks with
      | some _ => e4.safety_checks
      | none => none,
    monitoring := match e.monitoring with
      | some _ => e4.monitoring
      | none => none }
  return ⟨e4, callerView⟩

/-- ExperimentPredictor._prepare_training_data, per record: the 6-entry
feature list [latency_ms parameter (default 0), int duration seconds,
profile risk_score, number of affected components, number of affected
components listed among the learnings, hour + minute/60 of the timestamp].
The try/except around the loop catches only KeyError/AttributeError, which
the typed embedding cannot produce; int() ValueError propagates, and a
non-numeric latency_ms value reaches the numeric matrix and surfaces as an
error from the fit (embedded as TypeError here). -/
def trainingFeatures (store : Store) (m : ExperimentMemory) : Except String (List F) := do
  let lat : F ← match lookupD m.parameters "latency_ms" with
    | none => Except.ok (F.fin 0)
    | some (PVal.num v) => Except.ok v
    | some (PVal.str _) => Except.error "TypeError: non-numeric latency_ms"
  let dur ← pyInt (rstrip m.duration 's')
  let rp := getComponentRiskProfile store (PVal.str m.target_component)
  let inLearnings : ℕ :=
    (m.affected_components.filter (fun c => m.learnings.contains c)).length
  return [lat, F.fin (dur : ℚ), F.fin rp.risk_score,
    F.fin (m.affected_components.length : ℚ), F.fin (inLearnings : ℚ),
    F.fin ((m.ts_hour : ℚ) + (m.ts_minute : ℚ) / 60)]

/-- The (X, y) pair of _prepare_training_data: one feature row per record
and label 1 for SUCCESS/PARTIAL_SUCCESS, else 0. -/
def trainingData (store : Store) : Except String (List (List F) × List ℤ) := do
  let X ← store.mapM (trainingFeatures store)
  let y := store.map (fun m => if isSuccessful m.outcome then (1 : ℤ) else 0)
  return (X, y)

/-- Sorted distinct labels: sklearn stores np.unique(y) as the fitted
classes of a classifier, and predict_proba returns one probability column
per such class. -/
def uniqueSorted (l : List ℤ) : List ℤ := sortInts l.eraseDups

/-- len(feature_names) in the predictor: the dummy fit uses one all-zero
row of this width. -/
def featureCount : ℕ := 6

/-- Structural state of the fitted scaler and classifier: which matrix each
was fitted on, and the class labels the classifier saw. The numeric forest
and scaler outputs are not modelled; the recorded matrices and classes are
the facts train_model fixes and that predict_outcome's control flow
depends on. -/
structure FittedModel where
  scaler_fit_matrix : List (List F)
  classifier_fit_matrix : List (List F)
  classes : List ℤ
deriving DecidableEq

/-- ExperimentPredictor.train_model: with data, scaler.fit_transform(X) is
called (fitting the scaler on X, its return value discarded) and then
classifier.fit(X, y) on the raw X; with no data, both are fitted on a
single all-zero row with label list [0]. -/
def trainModel (store : Store) : Except String FittedModel := do
  let (X, y) ← trainingData store
  if X.isEmpty then
    let dummyX : List (List F) := [List.replicate featureCount (F.fin 0)]
    return ⟨dummyX, dummyX, uniqueSorted [0]⟩
  else
    return ⟨X, X, uniqueSorted y⟩

/-- Python float() applied to a parameter value: numeric values pass
through; strings parse when they are integer literals (general decimal
strings are not needed by any claim), otherwise ValueError. -/
def pyFloat (v : PVal) : Except String F :=
  match v with
  | PVal.num f => Except.ok f
  | PVal.str s =>
      match s.toInt? with
      | some n => Except.ok (F.fin (n : ℚ))
      | none => Except.error "ValueError: could not convert string to float"

/-- ExperimentPredictor._extract_features: [float latency_ms (default 0),
float duration seconds (default duration "30s"), profile risk_score for
params.get("target_component", ""), failure_type == "latency" as 0/1,
failure_type == "error" as 0/1, number of component relationships]. -/
def extractFeatures (store : Store) (e : Candidate) : Except String (List F) := do
  let lat : F ← match lookupD e.parameters "latency_ms" with
    | some v => pyFloat v
    | none => Except.ok (F.fin 0)
  let dur ← pyInt (rstrip (e.duration.getD "30s") 's')
  let target := (lookupD e.parameters "target_component").getD (PVal.str "")
  let rp := getComponentRiskProfile store target
  let failureType := (lookupD e.parameters "failure_type").getD (PVal.str "")
  let relationships := getComponentRelationships store target
  return [lat, F.fin (dur : ℚ), F.fin rp.risk_score,
    F.fin (if failureType == PVal.str "latency" then 1 else 0),
    F.fin (if failureType == PVal.str "error" then 1 else 0),
    F.fin (relationships.length : ℚ)]

/-- Shape of a successful predict_outcome result: the extracted feature
vector and the number of probability columns the classifier produced. The
probability values themselves come from the unmodelled forest. -/
structure PredictionShape where
  features : List F
  num_classes : ℕ
deriving DecidableEq

/-- ExperimentPredictor.predict_outcome: extract features, scale them, and
read predict(...)[0], predict_proba(...)[0][1] and max of the probability
row. predict_proba yields exactly one column per fitted class, so the
success_probability read probabilities[1] raises IndexError whenever the
classifier was fitted on a single distinct label, as the dummy fit is. -/
def predictOutcome (model : FittedModel) (store : Store) (e : Candidate) :
    Except String PredictionShape := do
  let features ← extractFeatures store e
  if model.classes.length ≤ 1 then Except.error "IndexError: probabilities[1]"
  else return ⟨features, model.classes.length⟩

/-- Per-column means of a feature matrix. -/
def colMean (X : List (List F)) (j : ℕ) : F :=
  F.mean (X.map (fun row => (row.get? j).getD (F.fin 0)))

/-- StandardScaler.transform specialised to matrices whose columns each
have zero sample variance (e.g. a single row): sklearn replaces a zero
standard deviation by a unit scale, so the transform is exactly the
subtraction of the column means. -/
def scalerTransformZeroVar (X : List (List F)) : List (List F) :=
  X.map (fun row =>
    (List.range (X.head?.getD []).length).map (fun j =>
      F.sub ((row.get? j).getD (F.fin 0)) (colMean X j)))

/-- RiskLevel enum of safety_validator.py. -/
inductive RiskLevel where
  | low
  | medium
  | high
  | critical
deriving DecidableEq

/-- The .value string of a RiskLevel member. -/
def RiskLevel.val : RiskLevel → String
  | .low => "low"
  | .medium => "medium"
  | .high => "high"
  | .critical => "critical"

/-- Outcome of one call of rule["validator"](experiment, system_analysis):
the returned dict either passed, or failed with details and an optional
recommendation, or the call raised. The individual check functions are
deterministic dict inspections; quantifying over this oracle covers every
behaviour they can exhibit, which is what claims about _apply_rules and
validate_experiment need. -/
inductive RuleOutcome where
  | passed
  | failed (details : String) (recommendation : Option String)
  | raised (message : String)
deriving DecidableEq

/-- A rule catalog entry: name, description and severity, from the
safety_rules literal of SafetyValidator. -/
structure SafetyRule where
  name : String
  description : String
  severity : RiskLevel
deriving DecidableEq

/-- The general rule group. -/
def generalRules : List SafetyRule :=
  [⟨"has_rollback", "Experiment must have a rollback procedure", RiskLevel.critical⟩,
   ⟨"has_monitoring", "System must have monitoring in place", RiskLevel.high⟩,
   ⟨"has_timeout", "Experiment must have a timeout", RiskLevel.high⟩]

/-- The network rule group. -/
def networkRules : List SafetyRule :=
  [⟨"has_fallback", "Service must have fallback mechanisms", RiskLevel.high⟩,
   ⟨"has_retry", "Service must have retry mechanisms", RiskLevel.medium⟩]

/-- The resource rule group. -/
def resourceRules : List SafetyRule :=
  [⟨"has_limits", "Component must have resource limits", RiskLevel.high⟩,
   ⟨"has_autoscaling", "Service should have autoscaling", RiskLevel.medium⟩]

/-- The dependency rule group. -/
def dependencyRules : List SafetyRule :=
  [⟨"has_circuit_breaker", "Service must have circuit breaker", RiskLevel.high⟩,
   ⟨"has_cache", "Service should have caching", RiskLevel.medium⟩]

/-- self.safety_rules.get(rule_type, []). -/
def safetyRules (ruleType : String) : List SafetyRule :=
  if ruleType == "general" then generalRules
  else if ruleType == "network" then networkRules
  else if ruleType == "resource" then resourceRules
  else if ruleType == "dependency" then dependencyRules
  else []

/-- A violation or warning entry {rule, description, details}. -/
structure RuleReport where
  rule : String
  description : String
  details : String
deriving DecidableEq

/-- A recommendation entry {rule, recommendation}. -/
structure Recommendation where
  rule : String
  recommendation : String
deriving DecidableEq

/-- Violations one rule contributes in _apply_rules: a failed High/Critical
rule contributes its report; a raised check contributes the fixed
"Error validating rule" report; everything else contributes none. -/
def violationsOf (r : SafetyRule) (o : RuleOutcome) : List RuleReport :=
  match o with
  | RuleOutcome.passed => []
  | RuleOutcome.failed details _ =>
      if r.severity == RiskLevel.high || r.severity == RiskLevel.critical then
        [⟨r.name, r.description, details⟩]
      else []
  | RuleOutcome.raised msg => [⟨r.name, "Error validating rule", msg⟩]

/-- Warnings one rule contributes: a failed rule below High severity. -/
def warningsOf (r : SafetyRule) (o : RuleOutcome) : List RuleReport :=
  match o with
  | RuleOutcome.failed details _ =>
      if r.severity == RiskLevel.high || r.severity == RiskLevel.critical then []
      else [⟨r.name, r.description, details⟩]
  | _ => []

/-- Recommendations one rule contributes: present exactly when the check
returned a failed dict carrying a recommendation key (a raised check adds
no recommendation). -/
def recommendationsOf (r : SafetyRule) (o : RuleOutcome) : List Recommendation :=
  match o with
  | RuleOutcome.failed _ (some rc) => [⟨r.name, rc⟩]
  | _ => []

/-- SafetyValidator._apply_rules: walk the rule list in order, appending
each rule's violations, warnings and recommendations to the accumulating
lists; a raised check is caught locally and recorded, never aborting the
remaining rules. -/
def applyRules (rules : List SafetyRule) (behavior : String → RuleOutcome)
    (violations warnings : List RuleReport) (recommendations : List Recommendation) :
    List RuleReport × List RuleReport × List Recommendation :=
  match rules with
  | [] => (violations, warnings, recommendations)
  | r :: rest =>
      let o := behavior r.name
      applyRules rest behavior (violations ++ violationsOf r o)
        (warnings ++ warningsOf r o) (recommendations ++ recommendationsOf r o)

/-- Python str.lower for the ASCII names this repository uses. -/
def pyLower (s : String) : String := String.mk (s.data.map Char.toLower)

/-- Substring test, Python "needle in hay". -/
def strContains (hay needle : String) : Bool :=
  (List.range (hay.toList.length + 1)).any (fun i =>
    ((hay.toList.drop i).take needle.toList.length) == needle.toList)

/-- The validator-side view of an experiment for rule-group selection:
the optional explicit type key and the optional name key. -/
structure VExperiment where
  type : Option String
  name : Option String
deriving DecidableEq

/-- SafetyValidator._determine_experiment_type: the explicit type field,
else substring matching on the lowercased name. -/
def determineExperimentType (e : VExperiment) : Option String :=
  match e.type with
  | some t => some t
  | none =>
      let nm := pyLower (e.name.getD "")
      if strContains nm "network_failure" then some "network"
      else if strContains nm "resource" then some "resource"
      else if strContains nm "dependency" then some "dependency"
      else none

/-- SafetyValidator._calculate_risk_level. -/
def calcRiskLevel (violations warnings : List RuleReport) : RiskLevel :=
  if violations.any (fun v => v.rule == "has_rollback") then RiskLevel.critical
  else if 0 < violations.length then RiskLevel.high
  else if 2 < warnings.length then RiskLevel.medium
  else RiskLevel.low

/-- The validation result dict of validate_experiment. -/
structure ValidationResult where
  is_safe : Bool
  risk_level : String
  violations : List RuleReport
  warnings : List RuleReport
  recommendations : List Recommendation
deriving DecidableEq

/-- SafetyValidator.validate_experiment: apply the general rules, then the
rules of the determined experiment type when one resolves, then derive the
risk level and the is_safe flag from the accumulated lists. -/
def validateExperiment (e : VExperiment) (behavior : String → RuleOutcome) :
    ValidationResult :=
  let res1 := applyRules (safetyRules "general") behavior [] [] []
  let res2 :=
    match determineExperimentType e with
    | some t => applyRules (safetyRules t) behavior res1.1 res1.2.1 res1.2.2
    | none => res1
  ⟨res2.1.isEmpty, (calcRiskLevel res2.1 res2.2.1).val, res2.1, res2.2.1, res2.2.2⟩

/-- The full rule list validate_experiment evaluates for an experiment:
the general group followed by the resolved type group. -/
def appliedRules (e : VExperiment) : List SafetyRule :=
  safetyRules "general" ++
    (match determineExperimentType e with
     | some t => safetyRules t
     | none => [])

/-- A duration parameter value as _validate_timeout discriminates it:
a Python int, a string, or a value of any other type. -/
inductive DurationValue where
  | int (n : ℤ)
  | str (s : String)
  | other
deriving DecidableEq

/-- The result dict of _validate_timeout. -/
structure TimeoutReport where
  passed : Bool
  details : Option String
  recommendation : Option String
deriving DecidableEq

/-- The bare passing result dict of _validate_timeout. -/
def timeoutPass : TimeoutReport := ⟨true, none, none⟩

/-- The regex match of the duration format against a string: one or more
digits followed by a single unit character s, m or h, anchored at both
ends. -/
def parseDurationRegex (s : String) : Option (ℕ × Char) :=
  let cs := s.toList
  match cs.getLast? with
  | none => none
  | some u =>
      if u == 's' || u == 'm' || u == 'h' then
        let ds := cs.dropLast
        if !ds.isEmpty && ds.all (fun c => c.isDigit) then some (digitsToNat ds, u)
        else none
      else none

/-- SafetyValidator._validate_timeout: fail when the duration parameter is
absent or of a non-int non-str type; parse and bound-check string
durations, converting to seconds and failing above 3600; an int duration
of any value falls through to the passing result. -/
def validateTimeout (duration : Option DurationValue) : TimeoutReport :=
  match duration with
  | none => ⟨false, some "No duration specified",
      some "Specify a maximum duration for the experiment"⟩
  | some dv =>
      match dv with
      | DurationValue.other => ⟨false, some "Invalid duration format", none⟩
      | DurationValue.int _ => timeoutPass
      | DurationValue.str s =>
          match parseDurationRegex s with
          | none => ⟨false, some "Invalid duration format",
              some "Use format: <number><unit> (e.g., 5m, 1h)"⟩
          | some (v, u) =>
              let mult : ℕ := if u == 's' then 1 else if u == 'm' then 60 else 3600
              if 3600 < v * mult then
                ⟨false, some "Duration too long",
                  some "Limit experiment duration to 1 hour"⟩
              else timeoutPass

/-- The value of a risk profile rendered as the Python dict it is in the
source: each of the five keys written by _build_risk_profile and by the
default branch of get_component_risk_profile, in insertion order. -/
inductive ProfVal where
  | num (q : ℚ)
  | ranges (r : List (String × PRange))
  | patterns (p : List FailurePattern)
deriving DecidableEq

/-- The full key/value contents of the profile dict the store returns. -/
def profileEntries (rp : RiskProfile) : List (String × ProfVal) :=
  [("success_rate", ProfVal.num rp.success_rate),
   ("avg_impact", ProfVal.num rp.avg_impact),
   ("risk_score", ProfVal.num rp.risk_score),
   ("safe_parameter_ranges", ProfVal.ranges rp.safe_parameter_ranges),
   ("failure_patterns", ProfVal.patterns rp.failure_patterns)]

/-- The neutral default profile exactly as the spec words it, for the
refinement comparison of claim C9: successRate 0.5, riskScore 0.5, empty
ranges, empty patterns, and nothing else. -/
def specNeutralProfileEntries : List (String × ProfVal) :=
  [("success_rate", ProfVal.num (1/2)),
   ("risk_score", ProfVal.num (1/2)),
   ("safe_parameter_ranges", ProfVal.ranges []),
   ("failure_patterns", ProfVal.patterns [])]

/-- C10: in the has_timeout rule, the one-hour cap and the duration-format
regex apply only to string durations: an integer duration of any value
falls through to the passing result, producing no timeout violation. -/
theorem c10_int_duration_always_passes (n : ℤ) :
    validateTimeout (some (DurationValue.int n)) = timeoutPass := rfl

/-- The model the dummy branch of train_model produces: scaler and
classifier both fitted on one all-zero row, class list [0]. -/
def dummyModel : FittedModel :=
  ⟨[List.replicate featureCount (F.fin 0)], [List.replicate featureCount (F.fin 0)],
    [0]⟩

/-- A well-formed feature-extractable candidate: parameters carry a target
component, duration is an integer-seconds string. -/
def c1cand : Candidate :=
  ⟨"network_failure", [("target_component", PVal.str "db")], some "30s", none, none, none⟩

/-- C1: after train_model on an empty history (the dummy all-zero, label-0
fit), predict_outcome raises rather than returning a result: the dummy fit
sees the single class 0, predict_proba therefore has exactly one column,
and the success_probability read probabilities[1] is an IndexError. This
contradicts the spec sentence that predictOutcome never raises with zero
history, and the dummy fit's own stated purpose of keeping the predictor
queryable. -/
theorem c1_predict_raises_after_dummy_fit :
    trainModel [] = Except.ok dummyModel ∧
    dummyModel.classes = [0] ∧
    predictOutcome dummyModel [] c1cand = Except.error "IndexError: probabilities[1]" := by
  refine ⟨rfl, rfl, by decide⟩

/-- One-record history for C5: a successful latency experiment whose
feature row is manifestly not invariant under standardisation. -/
def c5mem : ExperimentMemory :=
  ⟨"exp-1", 12, 0, "latency", "db", [("latency_ms", PVal.num (F.fin 100))],
    ExperimentOutcome.success, [], [], ["api"], "30s", "low"⟩

/-- The history [c5mem]. -/
def c5store : Store := [c5mem]

/-- The raw training matrix of c5store: latency 100, duration 30,
risk_score 0, one affected component, none in learnings, hour 12. -/
def c5X : List (List F) :=
  [[F.fin 100, F.fin 30, F.fin 0, F.fin 1, F.fin 0, F.fin 12]]

/-- The fitted-model state train_model produces on c5store. -/
def c5model : FittedModel := ⟨c5X, c5X, [1]⟩

/-- C5: train_model on the one-record history fits the scaler on X but then
fits the classifier on the raw, unscaled X: the matrix recorded as passed
to classifier.fit is c5X itself, while the scaler's transform of X (here
the column-mean subtraction, since every column of a one-row matrix has
zero variance) is the all-zero row, a different matrix. The spec says the
classifier is fitted on scaled features, and predict_outcome does scale
features before predicting, so training on raw X is a train/inference
skew. -/
theorem c5_classifier_fit_on_raw_features :
    trainModel c5store = Except.ok c5model ∧
    c5model.classifier_fit_matrix = c5X ∧
    c5model.scaler_fit_matrix = c5X ∧
    scalerTransformZeroVar c5X = [List.replicate featureCount (F.fin 0)] ∧
    c5X ≠ [List.replicate featureCount (F.fin 0)] := by
  refine ⟨by decide, rfl, rfl, by decide, by decide⟩

/-- C9 counterexample: for a component with zero history the returned
profile dict is not the four-entry mapping the claim states: it carries the
additional avg_impact entry (value 1.0). -/
theorem c9_counterexample :
    profileEntries (getComponentRiskProfile [] (PVal.str "ghost")) ≠
      specNeutralProfileEntries ∧
    (keysD (profileEntries (getComponentRiskProfile [] (PVal.str "ghost")))).contains
      "avg_impact" = true ∧
    (keysD specNeutralProfileEntries).contains "avg_impact" = false := by
  refine ⟨by decide, rfl, rfl⟩

/-- C9 amended: for every component with zero historical records in the
store, get_component_risk_profile returns, without raising, the default
profile with successRate 0.5, riskScore 0.5, empty ranges, empty patterns
and additionally avg_impact 1.0. -/
theorem c9_amended_default_profile (store : Store) (component : PVal)
    (h : componentHistory store component = []) :
    getComponentRiskProfile store component = defaultRiskProfile := by
  unfold getComponentRiskProfile
  rw [h]
  rfl

/-- Witness for C9's amended theorem at the empty store and a concrete
component name. -/
theorem c9_amended_witness :
    getComponentRiskProfile [] (PVal.str "ghost") = defaultRiskProfile :=
  c9_amended_default_profile [] (PVal.str "ghost") rfl

/-- The risk-level string of _calculate_risk_level as a nested conditional
on the final violation and warning lists. -/
theorem calcRiskLevel_val_eq (v w : List RuleReport) :
    (calcRiskLevel v w).val =
      (if v.any (fun x => x.rule == "has_rollback") then "critical"
       else if v ≠ [] then "high"
       else if 2 < w.length then "medium"
       else "low") := by
  unfold calcRiskLevel RiskLevel.val
  by_cases h1 : v.any (fun x => x.rule == "has_rollback")
  · simp [h1]
  · by_cases h2 : v = []
    · subst h2
      by_cases h3 : 2 < w.length <;> simp [h1, h3]
    · have hlen : 0 < v.length := List.length_pos.mpr h2
      simp [h1, h2, hlen]

/-- C7: validate_experiment marks the experiment safe exactly when the
final violation list is empty, and reports risk level critical when some
violation is named has_rollback, else high when violations exist, else
medium above two warnings, else low. -/
theorem c7_is_safe_and_risk_level (e : VExperiment) (behavior : String → RuleOutcome) :
    ((validateExperiment e behavior).is_safe = true ↔
      (validateExperiment e behavior).violations = []) ∧
    (validateExperiment e behavior).risk_level =
      (if (validateExperiment e behavior).violations.any
          (fun x => x.rule == "has_rollback") then "critical"
       else if (validateExperiment e behavior).violations ≠ [] then "high"
       else if 2 < (validateExperiment e behavior).warnings.length then "medium"
       else "low") := by
  constructor
  · show (validateExperiment e behavior).violations.isEmpty = true ↔ _
    exact List.isEmpty_iff
  · exact calcRiskLevel_val_eq _ _

/-- All violations the rule list contributes, rule by rule. -/
def allViolations (rules : List SafetyRule) (behavior : String → RuleOutcome) :
    List RuleReport :=
  (rules.map (fun rl => violationsOf rl (behavior rl.name))).flatten

/-- All warnings the rule list contributes, rule by rule. -/
def allWarnings (rules : List SafetyRule) (behavior : String → RuleOutcome) :
    List RuleReport :=
  (rules.map (fun rl => warningsOf rl (behavior rl.name))).flatten

/-- All recommendations the rule list contributes, rule by rule. -/
def allRecommendations (rules : List SafetyRule) (behavior : String → RuleOutcome) :
    List Recommendation :=
  (rules.map (fun rl => recommendationsOf rl (behavior rl.name))).flatten

/-- _apply_rules appends exactly each rule's own contribution: no rule's
outcome, a raised check included, stops the rules after it from being
evaluated. -/
theorem applyRules_eq (rules : List SafetyRule) (behavior : String → RuleOutcome)
    (v w : List RuleReport) (r : List Recommendation) :
    applyRules rules behavior v w r =
      (v ++ allViolations rules behavior, w ++ allWarnings rules behavior,
        r ++ allRecommendations rules behavior) := by
  induction rules generalizing v w r with
  | nil => simp [applyRules, allViolations, allWarnings, allRecommendations]
  | cons hd tl ih =>
      simp [applyRules, allViolations, allWarnings, allRecommendations, ih]

/-- The final lists of validate_experiment are the concatenated per-rule
contributions over the applied rules. -/
theorem validateExperiment_lists (e : VExperiment) (behavior : String → RuleOutcome) :
    (validateExperiment e behavior).violations = allViolations (appliedRules e) behavior ∧
    (validateExperiment e behavior).warnings = allWarnings (appliedRules e) behavior ∧
    (validateExperiment e behavior).recommendations =
      allRecommendations (appliedRules e) behavior := by
  unfold validateExperiment appliedRules
  cases h : determineExperimentType e with
  | none =>
      simp [h, applyRules_eq, allViolations, allWarnings, allRecommendations]
  | some t =>
      simp [h, applyRules_eq, allViolations, allWarnings, allRecommendations]

/-- C8: a rule whose check raises contributes one violation with
description "Error validating rule" carrying the message, and every other
applied rule is still evaluated: the returned lists are exactly the
concatenation of all per-rule contributions, so validate_experiment still
returns the complete structured result. -/
theorem c8_raised_rule_contained (e : VExperiment) (behavior : String → RuleOutcome)
    (rl : SafetyRule) (msg : String) (hmem : rl ∈ appliedRules e)
    (hraise : behavior rl.name = RuleOutcome.raised msg) :
    (validateExperiment e behavior).violations = allViolations (appliedRules e) behavior ∧
    (validateExperiment e behavior).warnings = allWarnings (appliedRules e) behavior ∧
    (validateExperiment e behavior).recommendations =
      allRecommendations (appliedRules e) behavior ∧
    (⟨rl.name, "Error validating rule", msg⟩ : RuleReport) ∈
      (validateExperiment e behavior).violations := by
  obtain ⟨hv, hw, hr⟩ := validateExperiment_lists e behavior
  refine ⟨hv, hw, hr, ?_⟩
  rw [hv]
  unfold allViolations
  rw [List.mem_flatten]
  refine ⟨violationsOf rl (behavior rl.name), List.mem_map_of_mem _ hmem, ?_⟩
  rw [hraise]
  simp [violationsOf]

/-- The experiment for C8's witness: no explicit type and no name, so only
the general rules apply. -/
def c8exp : VExperiment := ⟨none, none⟩

/-- The behaviour oracle for C8's witness: the has_timeout check raises,
every other check passes. -/
def c8behavior : String → RuleOutcome :=
  fun n => if n == "has_timeout" then RuleOutcome.raised "boom" else RuleOutcome.passed

/-- The raising rule of C8's witness: the general has_timeout rule. -/
def c8rule : SafetyRule := ⟨"has_timeout", "Experiment must have a timeout", RiskLevel.high⟩

/-- Witness for C8 at a concrete experiment and oracle. -/
theorem c8_witness :
    (validateExperiment c8exp c8behavior).violations =
      allViolations (appliedRules c8exp) c8behavior ∧
    (validateExperiment c8exp c8behavior).warnings =
      allWarnings (appliedRules c8exp) c8behavior ∧
    (validateExperiment c8exp c8behavior).recommendations =
      allRecommendations (appliedRules c8exp) c8behavior ∧
    (⟨c8rule.name, "Error validating rule", "boom"⟩ : RuleReport) ∈
      (validateExperiment c8exp c8behavior).violations :=
  c8_raised_rule_contained c8exp c8behavior c8rule "boom" (by decide) rfl

/-- Inversion for a successful Except bind: the first stage succeeded and
the continuation succeeded on its value. -/
theorem bindOk {ε α β : Type} {x : Except ε α} {f : α → Except ε β} {b : β}
    (h : (x >>= f) = Except.ok b) : ∃ a, x = Except.ok a ∧ f a = Except.ok b := by
  cases x with
  | ok a => exact ⟨a, rfl, h⟩
  | error e => simp [Bind.bind, Except.bind] at h

/-- History record for C6: two affected components, none of them named in
the learnings, timestamp at midnight. -/
def c6mem : ExperimentMemory :=
  ⟨"exp-2", 0, 0, "latency", "db", [("latency_ms", PVal.num (F.fin 100))],
    ExperimentOutcome.success, [], [], ["a", "b"], "30s", "low"⟩

/-- The history [c6mem]. -/
def c6store : Store := [c6mem]

/-- Candidate for C6 matching c6mem on latency parameter, duration and
target, with failure_type latency. -/
def c6cand : Candidate :=
  ⟨"latency",
    [("target_component", PVal.str "db"), ("latency_ms", PVal.num (F.fin 100)),
     ("failure_type", PVal.str "latency")],
    some "30s", none, none, none⟩

/-- C6 counterexample: at a record and a candidate that agree on latency
parameter, duration and target component, the training-time and
inference-time feature builders already disagree at index 3 (zero-based):
training puts the affected-component count (2) there, inference puts the
failure_type == "latency" indicator (1). The divergence is therefore not
confined to the sixth feature slot as the claim states. -/
theorem c6_counterexample :
    trainingFeatures c6store c6mem =
      Except.ok [F.fin 100, F.fin 30, F.fin 0, F.fin 2, F.fin 0, F.fin 0] ∧
    extractFeatures c6store c6cand =
      Except.ok [F.fin 100, F.fin 30, F.fin 0, F.fin 1, F.fin 0, F.fin 2] ∧
    lookupD c6cand.parameters "latency_ms" = lookupD c6mem.parameters "latency_ms" ∧
    c6cand.duration = some c6mem.duration ∧
    lookupD c6cand.parameters "target_component" =
      some (PVal.str c6mem.target_component) ∧
    ([F.fin 100, F.fin 30, F.fin 0, F.fin 2, F.fin 0, F.fin 0].get? 3 ≠
      [F.fin 100, F.fin 30, F.fin 0, F.fin 1, F.fin 0, F.fin 2].get? 3) := by
  refine ⟨by decide, by decide, rfl, rfl, rfl, by decide⟩

/-- C6 amended: under the correspondence the claim presumes (equal
latency_ms parameter entries, equal duration, the candidate targeting the
record's component), the two feature builders agree on the first three
features only: latency, duration seconds and target-component risk score.
The last three slots differ in general (training: affected count, count of
affected components among learnings, time of day; inference: the two
failure_type indicators and the relationship count). -/
theorem c6_amended_first_three_features_agree (store : Store) (m : ExperimentMemory)
    (e : Candidate) (tf ef : List F)
    (htf : trainingFeatures store m = Except.ok tf)
    (hef : extractFeatures store e = Except.ok ef)
    (hlat : lookupD e.parameters "latency_ms" = lookupD m.parameters "latency_ms")
    (hdur : e.duration = some m.duration)
    (htgt : lookupD e.parameters "target_component" =
      some (PVal.str m.target_component)) :
    tf.take 3 = ef.take 3 := by
  simp only [trainingFeatures] at htf
  simp only [extractFeatures] at hef
  rw [hlat] at hef
  rw [hdur] at hef
  rw [htgt] at hef
  simp only [Option.getD_some] at hef
  cases hml : lookupD m.parameters "latency_ms" with
  | none =>
      rw [hml] at htf hef
      obtain ⟨lat, hl1, htf⟩ := bindOk htf
      obtain ⟨dur, hd1, htf⟩ := bindOk htf
      obtain ⟨lat2, hl2, hef⟩ := bindOk hef
      obtain ⟨dur2, hd2, hef⟩ := bindOk hef
      rw [hd1] at hd2
      replace hl1 := Except.ok.inj hl1
      replace hl2 := Except.ok.inj hl2
      replace hd2 := Except.ok.inj hd2
      replace htf := Except.ok.inj htf
      replace hef := Except.ok.inj hef
      rw [← htf, ← hef, ← hl1, ← hl2, ← hd2]
      rfl
  | some v =>
      cases v with
      | num q =>
          rw [hml] at htf hef
          simp only [pyFloat] at hef
          obtain ⟨lat, hl1, htf⟩ := bindOk htf
          obtain ⟨dur, hd1, htf⟩ := bindOk htf
          obtain ⟨lat2, hl2, hef⟩ := bindOk hef
          obtain ⟨dur2, hd2, hef⟩ := bindOk hef
          rw [hd1] at hd2
          replace hl1 := Except.ok.inj hl1
          replace hl2 := Except.ok.inj hl2
          replace hd2 := Except.ok.inj hd2
          replace htf := Except.ok.inj htf
          replace hef := Except.ok.inj hef
          rw [← htf, ← hef, ← hl1, ← hl2, ← hd2]
          rfl
      | str s =>
          rw [hml] at htf
          simp [Bind.bind, Except.bind] at htf

/-- Witness for C6's amended theorem at the concrete record, candidate and
store of the counterexample instance. -/
theorem c6_amended_witness :
    ([F.fin 100, F.fin 30, F.fin 0, F.fin 2, F.fin 0, F.fin 0] : List F).take 3 =
      ([F.fin 100, F.fin 30, F.fin 0, F.fin 1, F.fin 0, F.fin 2] : List F).take 3 :=
  c6_amended_first_three_features_agree c6store c6mem c6cand
    [F.fin 100, F.fin 30, F.fin 0, F.fin 2, F.fin 0, F.fin 0]
    [F.fin 100, F.fin 30, F.fin 0, F.fin 1, F.fin 0, F.fin 2]
    (by decide) (by decide) rfl rfl rfl

/-- Inversion of a successful enhance_experiment call into its pipeline
stages and the aliasing-derived caller view. -/
theorem enhanceExperiment_ok {store : Store} {e : Candidate} {sa : SystemAnalysis}
    {res : EnhanceResult} (h : enhanceExperiment store e sa = Except.ok res) :
    ∃ similar tgt e3 e4,
      getSimilarExperiments store e (7/10) = Except.ok similar ∧
      lookupD e.parameters "target_component" = some tgt ∧
      optimizeDuration (addSafetyMeasures (adjustParameters e similar
        (getComponentRiskProfile store tgt)) (getComponentRiskProfile store tgt))
        similar = Except.ok e3 ∧
      addMonitoring e3 sa = Except.ok e4 ∧
      res = ⟨e4, { e with
        parameters := e4.parameters,
        safety_checks := match e.safety_checks with
          | some _ => e4.safety_checks
          | none => none,
        monitoring := match e.monitoring with
          | some _ => e4.monitoring
          | none => none }⟩ := by
  simp only [enhanceExperiment] at h
  obtain ⟨similar, hs, h⟩ := bindOk h
  cases hl : lookupD e.parameters "target_component" with
  | none =>
      rw [hl] at h
      simp [Bind.bind, Except.bind] at h
  | some tgt =>
      rw [hl] at h
      obtain ⟨tgt2, ht2, h⟩ := bindOk h
      replace ht2 := Except.ok.inj ht2
      subst ht2
      obtain ⟨e3, h3, h⟩ := bindOk h
      obtain ⟨e4, h4, h⟩ := bindOk h
      replace h := Except.ok.inj h
      exact ⟨similar, tgt, e3, e4, hs, rfl, h3, h4, h.symm⟩

/-- _add_safety_measures only rewrites the safety_checks field. -/
theorem addSafetyMeasures_parameters (e : Candidate) (rp : RiskProfile) :
    (addSafetyMeasures e rp).parameters = e.parameters := rfl

/-- _add_safety_measures leaves the duration untouched. -/
theorem addSafetyMeasures_duration (e : Candidate) (rp : RiskProfile) :
    (addSafetyMeasures e rp).duration = e.duration := rfl

/-- _optimize_duration never touches the parameter dict. -/
theorem optimizeDuration_parameters {e : Candidate} {similar : List ExperimentMemory}
    {e2 : Candidate} (h : optimizeDuration e similar = Except.ok e2) :
    e2.parameters = e.parameters := by
  simp only [optimizeDuration] at h
  by_cases h1 : similar.isEmpty
  · rw [if_pos h1] at h
    cases h
    rfl
  · rw [if_neg h1] at h
    obtain ⟨ds, hds, h⟩ := bindOk h
    by_cases h2 : ds.isEmpty
    · rw [if_pos h2] at h
      cases h
      rfl
    · rw [if_neg h2] at h
      obtain ⟨cur, hcur, h⟩ := bindOk h
      by_cases h3 : pyTrunc (npMedian ds) < cur
      · rw [if_pos h3] at h
        cases h
        rfl
      · rw [if_neg h3] at h
        cases h
        rfl

/-- _add_monitoring only rewrites the monitoring field. -/
theorem addMonitoring_fields {e : Candidate} {sa : SystemAnalysis} {e2 : Candidate}
    (h : addMonitoring e sa = Except.ok e2) :
    e2.parameters = e.parameters ∧ e2.duration = e.duration ∧
      e2.safety_checks = e.safety_checks ∧ e2.type = e.type := by
  simp only [addMonitoring] at h
  cases hl : lookupD e.parameters "target_component" with
  | none =>
      rw [hl] at h
      simp [Bind.bind, Except.bind] at h
  | some tgt =>
      rw [hl] at h
      obtain ⟨t2, ht2, h⟩ := bindOk h
      replace h := Except.ok.inj h
      rw [← h]
      exact ⟨rfl, rfl, rfl, rfl⟩

/-- Looking a key up after the clamp of _adjust_parameters yields the
clamped original value: keys and their order are untouched. -/
theorem lookupD_clampParams (ps : List (String × PVal)) (rs : List (String × PRange))
    (p : String) :
    lookupD (clampParams ps rs) p = (lookupD ps p).map (clampEntry rs p) := by
  induction ps with
  | nil => rfl
  | cons hd tl ih =>
      by_cases hk : hd.fst == p
      · have hk2 : hd.fst = p := by
          exact eq_of_beq hk
        simp [clampParams, lookupD, List.find?, hk, hk2] at ih ⊢
      · simp only [clampParams, lookupD, List.find?, hk] at ih ⊢
        simpa [clampParams] using ih

/-- The clamp really lands in the safe range: for a numeric value and a
finite nonempty range the clamped value is between the bounds. -/
theorem clampEntry_mem_range {rs : List (String × PRange)} {p : String} {lo hi v : ℚ}
    (hr : lookupD rs p = some ⟨F.fin lo, F.fin hi⟩) (hlohi : lo ≤ hi) :
    ∃ w, clampEntry rs p (PVal.num (F.fin v)) = PVal.num (F.fin w) ∧ lo ≤ w ∧ w ≤ hi := by
  unfold clampEntry
  rw [hr]
  by_cases h1 : v < lo
  · refine ⟨lo, ?_, le_refl lo, hlohi⟩
    simp [F.lt, h1]
  · by_cases h2 : hi < v
    · refine ⟨hi, ?_, hlohi, le_refl hi⟩
      simp [F.lt, h1, h2]
    · refine ⟨v, ?_, le_of_not_lt h1, le_of_not_lt h2⟩
      simp [F.lt, h1, h2]

/-- C3 amended: when get_similar_experiments returns a non-empty list and
the target profile's range for a numeric parameter is finite and nonempty
(min ≤ max), the experiment returned by enhance_experiment carries that
parameter clamped into [min, max]. (As the counterexample shows, the claim
fails without the non-empty-similar premise, because _adjust_parameters
returns early; the finiteness premise excludes the {inf, -inf} ranges
created by parameters that never had a numeric value.) -/
theorem c3_amended_clamped_into_range (store : Store) (e : Candidate)
    (sa : SystemAnalysis) (res : EnhanceResult) (sim : List ExperimentMemory)
    (tgt : PVal) (p : String) (lo hi v : ℚ)
    (h : enhanceExperiment store e sa = Except.ok res)
    (hsim : getSimilarExperiments store e (7/10) = Except.ok sim)
    (hne : sim ≠ [])
    (htgt : lookupD e.parameters "target_component" = some tgt)
    (hr : lookupD (getComponentRiskProfile store tgt).safe_parameter_ranges p =
      some ⟨F.fin lo, F.fin hi⟩)
    (hlohi : lo ≤ hi)
    (hv : lookupD e.parameters p = some (PVal.num (F.fin v))) :
    ∃ w, lookupD res.enhanced.parameters p = some (PVal.num (F.fin w)) ∧
      lo ≤ w ∧ w ≤ hi := by
  obtain ⟨sim2, tgt2, e3, e4, hs2, ht2, h3, h4, hres⟩ := enhanceExperiment_ok h
  rw [hsim] at hs2
  replace hs2 := Except.ok.inj hs2
  subst hs2
  rw [htgt] at ht2
  replace ht2 := Option.some.inj ht2
  subst ht2
  have hep : res.enhanced.parameters = clampParams e.parameters
      (getComponentRiskProfile store tgt).safe_parameter_ranges := by
    have h43 := (addMonitoring_fields h4).1
    have h32 := optimizeDuration_parameters h3
    have hne2 : sim.isEmpty = false := by
      cases sim with
      | nil => exact absurd rfl hne
      | cons a b => rfl
    rw [hres]
    show e4.parameters = _
    rw [h43, h32, addSafetyMeasures_parameters]
    unfold adjustParameters
    rw [hne2]
    rfl
  rw [hep, lookupD_clampParams, hv]
  obtain ⟨w, hw, hwlo, hwhi⟩ := clampEntry_mem_range (v := v) hr hlohi
  refine ⟨w, ?_, hwlo, hwhi⟩
  simp only [Option.map_some']
  rw [hw]

/-- History record for the C3/C4 concrete instances: a successful latency
experiment on component db with latency_ms 100 and duration 10s, whose
parameter dict also names the target component. -/
def c4mem : ExperimentMemory :=
  ⟨"exp-3", 0, 0, "latency", "db",
    [("target_component", PVal.str "db"), ("latency_ms", PVal.num (F.fin 100))],
    ExperimentOutcome.success, [], [], [], "10s", "low"⟩

/-- The history [c4mem]. -/
def c4store : Store := [c4mem]

/-- Candidate matching c4mem closely enough (similarity 0.8) that
get_similar_experiments returns it: same type, same target, same parameter
keys, latency far above the safe range. -/
def c4cand : Candidate :=
  ⟨"latency",
    [("target_component", PVal.str "db"), ("latency_ms", PVal.num (F.fin 500))],
    some "30s", none, none, none⟩

/-- An empty system analysis. -/
def c4sa : SystemAnalysis := ⟨[], []⟩

/-- The result of enhance_experiment on the c4 instance (junk pair on the
error branch, which the theorems below prove is not taken). -/
def c4result : EnhanceResult :=
  match enhanceExperiment c4store c4cand c4sa with
  | Except.ok r => r
  | Except.error _ => ⟨c4cand, c4cand⟩

/-- C4 counterexample: enhance_experiment does not leave the caller's
input unchanged. The input's latency_ms is 500 before the call; the
shallow copy shares the nested parameter dict, _adjust_parameters clamps
in place, and after the call the caller's experiment carries latency_ms
100: the caller view differs from the input. -/
theorem c4_counterexample :
    enhanceExperiment c4store c4cand c4sa = Except.ok c4result ∧
    lookupD c4cand.parameters "latency_ms" = some (PVal.num (F.fin 500)) ∧
    lookupD c4result.callerView.parameters "latency_ms" = some (PVal.num (F.fin 100)) ∧
    c4result.callerView ≠ c4cand := by
  refine ⟨by decide, rfl, by decide, by decide⟩

/-- C3 history record: a successful record for db of a different
experiment type, so the candidate below scores only 0.4 similarity. -/
def c3cMem : ExperimentMemory :=
  ⟨"exp-4", 0, 0, "cpu_stress", "db", [("latency_ms", PVal.num (F.fin 100))],
    ExperimentOutcome.success, [], [], [], "10s", "low"⟩

/-- The history [c3cMem]. -/
def c3cStore : Store := [c3cMem]

/-- C3 candidate: targets db with latency_ms 500, outside the recorded
safe range [100, 100], but similarity 0.4 < 0.7 to the only record. -/
def c3cCand : Candidate :=
  ⟨"latency",
    [("target_component", PVal.str "db"), ("latency_ms", PVal.num (F.fin 500))],
    some "30s", none, none, none⟩

/-- An empty system analysis for the C3 instance. -/
def c3cSA : SystemAnalysis := ⟨[], []⟩

/-- The result of enhance_experiment on the C3 instance. -/
def c3cResult : EnhanceResult :=
  match enhanceExperiment c3cStore c3cCand c3cSA with
  | Except.ok r => r
  | Except.error _ => ⟨c3cCand, c3cCand⟩

/-- C3 counterexample: the store knows the safe range [100, 100] for
latency_ms on db, the candidate carries 500, yet because
get_similar_experiments returns no similar experiment the clamp is
skipped and the enhanced experiment keeps latency_ms 500, outside the
range. -/
theorem c3_counterexample :
    enhanceExperiment c3cStore c3cCand c3cSA = Except.ok c3cResult ∧
    getSimilarExperiments c3cStore c3cCand (7/10) = Except.ok [] ∧
    lookupD (getComponentRiskProfile c3cStore (PVal.str "db")).safe_parameter_ranges
      "latency_ms" = some ⟨F.fin 100, F.fin 100⟩ ∧
    lookupD c3cResult.enhanced.parameters "latency_ms" =
      some (PVal.num (F.fin 500)) ∧
    ¬((100 : ℚ) ≤ 500 ∧ (500 : ℚ) ≤ 100) := by
  refine ⟨by decide, by decide, by decide, by decide, by decide⟩

/-- Witness for C3's amended theorem at the c4 instance, where the clamp
fires: the enhanced latency_ms lands in the range [100, 100]. -/
theorem c3_amended_witness :
    ∃ w, lookupD c4result.enhanced.parameters "latency_ms" =
      some (PVal.num (F.fin w)) ∧ (100 : ℚ) ≤ w ∧ w ≤ 100 :=
  c3_amended_clamped_into_range c4store c4cand c4sa c4result [c4mem]
    (PVal.str "db") "latency_ms" 100 100 500 (by decide) (by decide) (by decide)
    rfl (by decide) (by decide) rfl

/-- C4 amended: enhance_experiment returns a modified copy whose top-level
fields are fresh, so the input's type, duration, affected_components and
key-presence are unchanged; but the nested parameters dict is shared, so
after the call the caller's parameters equal the enhanced ones (and
likewise safety_checks and monitoring exactly when the input already had
those keys). When no similar experiments exist and the input carried
neither a safety_checks nor a monitoring key, the input is left fully
unchanged. -/
theorem c4_amended_aliasing (store : Store) (e : Candidate) (sa : SystemAnalysis)
    (res : EnhanceResult) (h : enhanceExperiment store e sa = Except.ok res) :
    res.callerView.type = e.type ∧
    res.callerView.duration = e.duration ∧
    res.callerView.affected_components = e.affected_components ∧
    res.callerView.parameters = res.enhanced.parameters ∧
    (e.safety_checks = none → res.callerView.safety_checks = none) ∧
    (e.monitoring = none → res.callerView.monitoring = none) ∧
    (∀ sim, getSimilarExperiments store e (7/10) = Except.ok sim → sim = [] →
      e.safety_checks = none → e.monitoring = none → res.callerView = e) := by
  obtain ⟨sim, tgt, e3, e4, hs, ht, h3, h4, hres⟩ := enhanceExperiment_ok h
  obtain ⟨hp4, hd4, hsc4, hty4⟩ := addMonitoring_fields h4
  subst hres
  refine ⟨rfl, rfl, rfl, rfl, ?_, ?_, ?_⟩
  · intro hn
    show (match e.safety_checks with
      | some _ => e4.safety_checks
      | none => none) = none
    rw [hn]
  · intro hn
    show (match e.monitoring with
      | some _ => e4.monitoring
      | none => none) = none
    rw [hn]
  · intro sim2 hsim2 hempty hsn hmn
    rw [hs] at hsim2
    replace hsim2 := Except.ok.inj hsim2
    rw [← hsim2] at hempty
    subst hempty
    have hpe : e4.parameters = e.parameters := by
      rw [hp4, optimizeDuration_parameters h3, addSafetyMeasures_parameters]
      simp [adjustParameters]
    show ({ e with
      parameters := e4.parameters,
      safety_checks := match e.safety_checks with
        | some _ => e4.safety_checks
        | none => none,
      monitoring := match e.monitoring with
        | some _ => e4.monitoring
        | none => none } : Candidate) = e
    rcases e with ⟨ty, ps, du, ac, sc, mo⟩
    simp only at hsn hmn
    subst hsn
    subst hmn
    simp only at hpe
    simp [hpe]

/-- Witness for C4's amended theorem at the C3 concrete instance, where no
similar experiments exist and the input has no safety_checks or monitoring
key: the caller's input is returned to it unchanged. -/
theorem c4_amended_witness : c3cResult.callerView = c3cCand :=
  (c4_amended_aliasing c3cStore c3cCand c3cSA c3cResult (by decide)).2.2.2.2.2.2
    [] (by decide) rfl rfl rfl

/-- History record for the C2 counterexample: one failed experiment on db
with ten affected components, so the profile risk score is
(1 - 0) * 10 = 10. -/
def c2mem : ExperimentMemory :=
  ⟨"exp-5", 0, 0, "network_failure", "db", [], ExperimentOutcome.failure, [], [],
    ["a", "b", "c", "d", "e", "f", "g", "h", "i", "j"], "30s", "high"⟩

/-- The history [c2mem]. -/
def c2store : Store := [c2mem]

/-- Candidate for the C2 counterexample. -/
def c2cand : Candidate :=
  ⟨"network_failure", [("target_component", PVal.str "db")], some "30s",
    none, none, none⟩

/-- C2 counterexample: calculate_experiment_risk returns base_risk 10 and
total_risk 3.12, both far outside [0, 1]: base_risk is the profile's
(1 - success_rate) * avg_impact, and avg_impact is an unbounded mean
count of affected components. -/
theorem c2_counterexample :
    calculateExperimentRisk c2store c2cand c4sa =
      Except.ok ⟨F.fin (78/25), 10, 0, F.fin (1/2), 1/10⟩ ∧
    ¬((10 : ℚ) ≤ 1) ∧
    F.lt (F.fin 1) (F.fin (78/25)) = true := by
  refine ⟨by decide, by decide, by decide⟩

/-- Bounds of the profile scalars: the success rate is a fraction of a
record count, the average impact a mean of sizes, the risk score their
product with a factor in [0, 1]. -/
theorem riskProfile_bounds (store : Store) (comp : PVal) :
    0 ≤ (getComponentRiskProfile store comp).success_rate ∧
    (getComponentRiskProfile store comp).success_rate ≤ 1 ∧
    0 ≤ (getComponentRiskProfile store comp).avg_impact ∧
    0 ≤ (getComponentRiskProfile store comp).risk_score := by
  unfold getComponentRiskProfile
  cases hist : componentHistory store comp with
  | nil =>
      norm_num [defaultRiskProfile]
  | cons a t =>
      have hn : (0 : ℚ) < ((a :: t).length : ℚ) := by
        exact_mod_cast Nat.succ_pos t.length
      have hsr0 : (0 : ℚ) ≤ ((successfulOf (a :: t)).length : ℚ) / ((a :: t).length : ℚ) :=
        div_nonneg (Nat.cast_nonneg _) (le_of_lt hn)
      have hsr1 : ((successfulOf (a :: t)).length : ℚ) / ((a :: t).length : ℚ) ≤ 1 := by
        rw [div_le_one hn]
        exact_mod_cast List.length_filter_le _ _
      have hai : (0 : ℚ) ≤
          (((a :: t).map (fun m => (m.affected_components.length : ℚ))).sum) /
            ((a :: t).length : ℚ) := by
        refine div_nonneg (List.sum_nonneg ?_) (le_of_lt hn)
        intro x hx
        obtain ⟨m, _, hmx⟩ := List.mem_map.mp hx
        rw [← hmx]
        exact Nat.cast_nonneg _
      exact ⟨hsr0, hsr1, hai, mul_nonneg (by linarith) hai⟩

/-- The impact risk always lies in [0, 1]: it is 0 with no affected
components and otherwise a min with 1 of a nonnegative combination. -/
theorem impactRisk_bounds (affected : List String) (rel : List (String × ℕ))
    (sa : SystemAnalysis) :
    0 ≤ calculateImpactRisk affected rel sa ∧ calculateImpactRisk affected rel sa ≤ 1 := by
  unfold calculateImpactRisk
  cases affected with
  | nil => exact ⟨le_refl 0, by norm_num⟩
  | cons a t =>
      have hn : (0 : ℚ) < (((a :: t).length : ℕ) : ℚ) := by
        exact_mod_cast Nat.succ_pos t.length
      have hcc : (0 : ℚ) ≤ 0.7 * ((interCount (a :: t) sa.critical_components : ℚ) /
          (((a :: t).length : ℕ) : ℚ)) := by
        refine mul_nonneg (by norm_num) (div_nonneg (Nat.cast_nonneg _) (le_of_lt hn))
      have hrs : (0 : ℚ) ≤ 0.3 *
          ((((a :: t).map (fun c => (((lookupD rel c).getD 0 : ℕ) : ℚ))).sum) /
            (((a :: t).length : ℕ) : ℚ)) := by
        refine mul_nonneg (by norm_num) (div_nonneg (List.sum_nonneg ?_) (le_of_lt hn))
        intro x hx
        obtain ⟨c, _, hcx⟩ := List.mem_map.mp hx
        rw [← hcx]
        exact Nat.cast_nonneg _
      exact ⟨le_min (by linarith) (by norm_num), min_le_right _ _⟩

/-- The duration risk lies in [0, 1] for a nonnegative parsed duration. -/
theorem durationRiskOf_bounds (ds : ℤ) (h : 0 ≤ ds) :
    0 ≤ durationRiskOf ds ∧ durationRiskOf ds ≤ 1 := by
  unfold durationRiskOf
  have hq : (0 : ℚ) ≤ (ds : ℚ) := by exact_mod_cast h
  exact ⟨le_min (div_nonneg hq (by norm_num)) (by norm_num), min_le_right _ _⟩

/-- Inversion of a successful calculate_experiment_risk call into the
profile score, impact risk, parameter risk and duration risk that make up
the returned dict. -/
theorem calculateExperimentRisk_ok {store : Store} {e : Candidate} {sa : SystemAnalysis}
    {r : RiskScores} (h : calculateExperimentRisk store e sa = Except.ok r) :
    ∃ tgt pr ds,
      lookupD e.parameters "target_component" = some tgt ∧
      calculateParameterRisk e.parameters
        (getComponentRiskProfile store tgt).safe_parameter_ranges = Except.ok pr ∧
      pyInt (rstrip (e.duration.getD "30s") 's') = Except.ok ds ∧
      r = ⟨F.sum
            [F.mul (F.fin 0.3) (F.fin (getComponentRiskProfile store tgt).risk_score),
             F.mul (F.fin 0.3) (F.fin (calculateImpactRisk (e.affected_components.getD [])
               (getComponentRelationships store tgt) sa)),
             F.mul (F.fin 0.2) pr,
             F.mul (F.fin 0.2) (F.fin (durationRiskOf ds))],
           (getComponentRiskProfile store tgt).risk_score,
           calculateImpactRisk (e.affected_components.getD [])
             (getComponentRelationships store tgt) sa,
           pr, durationRiskOf ds⟩ := by
  simp only [calculateExperimentRisk] at h
  cases hl : lookupD e.parameters "target_component" with
  | none =>
      rw [hl] at h
      simp [Bind.bind, Except.bind] at h
  | some tgt =>
      rw [hl] at h
      obtain ⟨tgt2, ht2, h⟩ := bindOk h
      replace ht2 := Except.ok.inj ht2
      subst ht2
      obtain ⟨pr, hpr, h⟩ := bindOk h
      obtain ⟨ds, hds, h⟩ := bindOk h
      replace h := Except.ok.inj h
      exact ⟨tgt, pr, ds, rfl, hpr, hds, h.symm⟩

/-- C2 amended: base_risk is nonnegative but unbounded above (it is the
profile risk score (1 - success_rate) * avg_impact with avg_impact an
unbounded mean count, as the counterexample shows); impact_risk always
lies in [0, 1]; duration_risk lies in [0, 1] whenever the parsed duration
is nonnegative; and total_risk lies in [0, 1] whenever the two unbounded
inputs happen to be bounded: parameter_risk a finite value in [0, 1] and
base_risk at most 1. -/
theorem c2_amended_risk_bounds (store : Store) (e : Candidate) (sa : SystemAnalysis)
    (r : RiskScores) (h : calculateExperimentRisk store e sa = Except.ok r) :
    0 ≤ r.base_risk ∧
    (0 ≤ r.impact_risk ∧ r.impact_risk ≤ 1) ∧
    (∀ ds, pyInt (rstrip (e.duration.getD "30s") 's') = Except.ok ds → 0 ≤ ds →
      0 ≤ r.duration_risk ∧ r.duration_risk ≤ 1) ∧
    (∀ pq, r.parameter_risk = F.fin pq → 0 ≤ pq → pq ≤ 1 → r.base_risk ≤ 1 →
      ∀ ds, pyInt (rstrip (e.duration.getD "30s") 's') = Except.ok ds → 0 ≤ ds →
        ∃ tq, r.total_risk = F.fin tq ∧ 0 ≤ tq ∧ tq ≤ 1) := by
  obtain ⟨tgt, pr, ds0, htgt, hpr, hds0, hr⟩ := calculateExperimentRisk_ok h
  obtain ⟨hb0, _, _, hb⟩ := riskProfile_bounds store tgt
  obtain ⟨hi0, hi1⟩ := impactRisk_bounds (e.affected_components.getD [])
    (getComponentRelationships store tgt) sa
  subst hr
  refine ⟨hb, ⟨hi0, hi1⟩, ?_, ?_⟩
  · intro ds hds hdge
    rw [hds0] at hds
    replace hds := Except.ok.inj hds
    subst hds
    exact durationRiskOf_bounds ds0 hdge
  · intro pq hpq hpq0 hpq1 hb1 ds hds hdge
    rw [hds0] at hds
    replace hds := Except.ok.inj hds
    subst hds
    simp only at hpq
    subst hpq
    obtain ⟨hd0, hd1⟩ := durationRiskOf_bounds ds0 hdge
    refine ⟨0 + 0.3 * (getComponentRiskProfile store tgt).risk_score +
      0.3 * calculateImpactRisk (e.affected_components.getD [])
        (getComponentRelationships store tgt) sa +
      0.2 * pq + 0.2 * durationRiskOf ds0, rfl, by linarith, by linarith⟩

/-- Candidate for C2's witness: latency inside the recorded safe range so
the parameter risk is the finite 0. -/
def c2wCand : Candidate :=
  ⟨"latency",
    [("target_component", PVal.str "db"), ("latency_ms", PVal.num (F.fin 100))],
    some "30s", none, none, none⟩

/-- The risk dict of the C2 witness instance. -/
def c2wRes : RiskScores :=
  match calculateExperimentRisk c4store c2wCand c4sa with
  | Except.ok r => r
  | Except.error _ => ⟨F.nan, 0, 0, F.nan, 0⟩

/-- Witness for C2's amended theorem at a concrete bounded instance: the
total risk is a finite rational in [0, 1]. -/
theorem c2_amended_witness :
    ∃ tq, c2wRes.total_risk = F.fin tq ∧ 0 ≤ tq ∧ tq ≤ 1 :=
  (c2_amended_risk_bounds c4store c2wCand c4sa c2wRes (by decide)).2.2.2
    0 (by decide) (by decide) (by decide) (by decide) 30 (by decide) (by decide)

end ChaosSpec
